import Mathlib

/-!
Verification of the qgis_geonode network-fetch layer.

Shallow embedding of `src/qgis_geonode/apiclient/base.py` and
`src/qgis_geonode/gui/geonode_source_select_provider.py`.

The Qt/QGIS runtime (event loop, signals, the shared network access manager,
the XML DOM) is external to the repository; it is modelled by explicit data:
a delivery trace stands for the sequence of `finished` signal deliveries that
the nested event loop of `wait_for_signal` processes before it quits, and a
`QDomDocument` value stands for the outcome of Qt XML parsing of raw bytes.
-/

namespace QgisGeonode

/-- The `ParsedNetworkReply` record produced by `parse_network_reply`
(declared in `..utils`): optional HTTP status code, optional reason phrase,
and an optional transport-level error string (`qt_error`). -/
structure ParsedNetworkReply where
  http_status_code : Option Nat
  http_status_reason : Option String
  qt_error : Option String
  deriving Repr, DecidableEq

/-- Model of the `QNetworkReply` handle returned by the network access
manager's `get`/`post`: the `requestId` property QGIS sets on it, and the
bytes `readAll()` would return. -/
structure QtNetworkReply where
  requestId : Nat
  content : List Nat
  deriving Repr, DecidableEq

/-- Model of the `QgsNetworkReplyContent` argument carried by the shared
network access manager's `finished` signal: the correlation id
(`requestId()`), and the raw attributes the reply parser reads. -/
structure QgsNetworkReplyContent where
  requestId : Nat
  transport_error : Option String
  http_status_code : Nat
  http_status_reason : String
  deriving Repr, DecidableEq

/-- Modelled from the spec: `parse_network_reply` lives in the `utils`
module, which is not among the provided sources.  Per the Reply Parser
contract, a transport-level failure yields a human-readable transport error
string and no HTTP status, while an HTTP-level reply (success or 4xx/5xx)
yields status code and reason with no transport error. -/
def parse_network_reply (reply : QgsNetworkReplyContent) : ParsedNetworkReply :=
  match reply.transport_error with
  | some err =>
      { http_status_code := none, http_status_reason := none, qt_error := some err }
  | none =>
      { http_status_code := some reply.http_status_code
        http_status_reason := some reply.http_status_reason
        qt_error := none }

/-- `reply_matches`: the delivered reply's `requestId()` equals the
`requestId` property of the `QNetworkReply` the task itself initiated. -/
def reply_matches (qgis_reply : QgsNetworkReplyContent) (qt_reply : QtNetworkReply) :
    Bool :=
  qgis_reply.requestId == qt_reply.requestId

/-- The mutable fields of a `MyNetworkFetcherTask` touched by `run` and
`_request_done`: `reply_content`, `parsed_reply` and the private `_reply`
handle. -/
structure TaskState where
  reply_content : Option (List Nat)
  parsed_reply : Option ParsedNetworkReply
  _reply : Option QtNetworkReply
  deriving Repr, DecidableEq

/-- The two pyqtSignal emissions of `MyNetworkFetcherTask`. -/
inductive Event where
  | request_parsed
  | request_finished
  deriving Repr, DecidableEq

/-- `MyNetworkFetcherTask._request_done`: on each delivery of the shared
`finished` signal, ignore it when `self._reply is None`, otherwise accept it
only when `reply_matches`; on a match, store `readAll()` into
`reply_content`, store the parsed reply, and emit `request_parsed` (the
returned Bool records whether `request_parsed` was emitted). -/
def _request_done (st : TaskState) (qgis_reply : QgsNetworkReplyContent) :
    TaskState × Bool :=
  match st._reply with
  | none => (st, false)
  | some qt_reply =>
      if reply_matches qgis_reply qt_reply then
        ({ st with
            reply_content := some qt_reply.content
            parsed_reply := some (parse_network_reply qgis_reply) }, true)
      else
        (st, false)

/-- The nested event loop of `wait_for_signal`, as seen by one task: the
deliveries of the shared `finished` signal are handed to `_request_done` one
at a time; the loop quits as soon as `request_parsed` is emitted (its `quit`
slot is bound to that signal), or when the delivery trace is exhausted (the
timeout fallback).  Returns the final task state and the number of
`request_parsed` emissions. -/
def processDeliveries (st : TaskState) :
    List QgsNetworkReplyContent → TaskState × Nat
  | [] => (st, 0)
  | d :: rest =>
      if (_request_done st d).2 then ((_request_done st d).1, 1)
      else processDeliveries (_request_done st d).1 rest

/-- Model of the try/except block ending `MyNetworkFetcherTask.run`:
`result = self.parsed_reply.qt_error is None` raises `AttributeError` when
`parsed_reply` is still `None`; the except arm sets `result = False` and
leaves `_reply` unchanged, while the try arm clears `_reply`. -/
def resultAndCleanup (st : TaskState) : Bool × TaskState :=
  match st.parsed_reply with
  | some pr => (pr.qt_error.isNone, { st with _reply := none })
  | none => (false, st)

/-- Everything observable about one execution of `run`: the final task
state, the returned Bool, and the trace of signal emissions. -/
structure RunOutcome where
  state : TaskState
  result : Bool
  events : List Event
  deriving Repr, DecidableEq

/-- `wait_for_signal`'s default `timeout` argument, in milliseconds. -/
def wait_for_signal_default_timeout : Nat := 10000

/-- `MyNetworkFetcherTask.run`, starting from the constructor-initialised
fields (`reply_content = None`, `parsed_reply = None`): bind `_reply` to the
handle returned by `get`/`post`, wait inside `wait_for_signal` while
deliveries are processed, compute the result from `parsed_reply.qt_error`,
then emit `request_finished`. -/
def run (newReply : QtNetworkReply) (deliveries : List QgsNetworkReplyContent) :
    RunOutcome :=
  let st0 : TaskState :=
    { reply_content := none, parsed_reply := none, _reply := some newReply }
  let waited := processDeliveries st0 deliveries
  let checked := resultAndCleanup waited.1
  { state := checked.2
    result := checked.1
    events := List.replicate waited.2 Event.request_parsed ++ [Event.request_finished] }

/-- The `QNetworkRequest.RedirectPolicy` enum values used by Qt. -/
inductive RedirectPolicy where
  | manualRedirect
  | noLessSafeRedirect
  | sameOriginRedirect
  | userVerifiedRedirect
  deriving Repr, DecidableEq

/-- The default value of the `redirect_policy` parameter of
`MyNetworkFetcherTask.__init__`: `QtNetwork.QNetworkRequest.NoLessSafeRedirectPolicy`. -/
def default_redirect_policy : RedirectPolicy := RedirectPolicy.noLessSafeRedirect

/-- Model of the process-wide `QgsNetworkAccessManager.instance()` singleton:
its redirect policy and the number of handlers connected to its `finished`
signal. -/
structure QgsNetworkAccessManager where
  redirectPolicy : RedirectPolicy
  finishedConnections : Nat
  deriving Repr, DecidableEq

/-- `MyNetworkFetcherTask.__init__`, restricted to its effects on the
singleton network access manager and the task fields: it stores the given
redirect policy, calls `setRedirectPolicy` on the singleton, connects
`_request_done` to the singleton's `finished` signal, and initialises
`reply_content`, `parsed_reply` and `_reply` to `None`. -/
def myNetworkFetcherTask_init (nam : QgsNetworkAccessManager)
    (redirect_policy : RedirectPolicy) : QgsNetworkAccessManager × TaskState :=
  ({ redirectPolicy := redirect_policy
     finishedConnections := nam.finishedConnections + 1 },
   { reply_content := none, parsed_reply := none, _reply := none })

/-- Whether a parsed reply is a failure for the purposes of the client
facade: a transport error is present, or the HTTP status is 4xx/5xx (or
absent). -/
def parsedReplyIsFailure (pr : ParsedNetworkReply) : Bool :=
  pr.qt_error.isSome ||
    (match pr.http_status_code with
     | some code => decide (400 ≤ code)
     | none => true)

/-- Modelled from the spec: the concrete catalog client (not among the
provided sources) re-emits, on failure, the generic `error_received` event
carrying (message, http status, transport error) built from the task's
parsed reply; on success it emits no error event. -/
def facade_error_event (pr : ParsedNetworkReply) :
    Option (String × Option Nat × Option String) :=
  if parsedReplyIsFailure pr then
    some (pr.http_status_reason.getD "", pr.http_status_code, pr.qt_error)
  else
    none

/-- Model of a Qt XML DOM element: either a null element (what Qt returns
for a missing child or an unset `documentElement`) or a named element with
child elements. -/
inductive QDomElement where
  | nullElement : QDomElement
  | element (tag : String) (children : List QDomElement) : QDomElement

/-- `QDomElement.isNull`. -/
def QDomElement.isNull : QDomElement → Bool
  | QDomElement.nullElement => true
  | QDomElement.element _ _ => false

/-- First child element carrying the given tag name, else a null element. -/
def firstChildElementAux (name : String) : List QDomElement → QDomElement
  | [] => QDomElement.nullElement
  | c :: rest =>
      match c with
      | QDomElement.nullElement => firstChildElementAux name rest
      | QDomElement.element tag _ =>
          if tag = name then c else firstChildElementAux name rest

/-- `QDomElement.firstChildElement(name)`. -/
def QDomElement.firstChildElement (e : QDomElement) (name : String) : QDomElement :=
  match e with
  | QDomElement.nullElement => QDomElement.nullElement
  | QDomElement.element _ children => firstChildElementAux name children

/-- Model of a `QDomDocument` after `setContent(raw_sld, True)` was called on
the downloaded bytes: whether loading succeeded, and what
`documentElement()` returns.  The value stands for the Qt XML library's
verdict on the raw bytes, which is external to the repository. -/
structure QDomDocument where
  loaded : Bool
  root : QDomElement

/-- `BaseGeonodeClient.deserialize_sld_style`: `setContent` failure raises
`RuntimeError("Could not load downloaded SLD document")`; otherwise the
document is returned.  Exceptions are modelled with `Except`. -/
def deserialize_sld_style (doc : QDomDocument) : Except String QDomDocument :=
  if doc.loaded then Except.ok doc
  else Except.error "Could not load downloaded SLD document"

/-- `BaseGeonodeClient.handle_layer_style_detail`: deserialize the SLD,
raise `RuntimeError("Could not parse downloaded SLD document")` when the
document element is null or has no `NamedLayer` child, otherwise emit
`style_detail_received` with the named layer.  The `ok` payload is the list
of `style_detail_received` emissions. -/
def handle_layer_style_detail (doc : QDomDocument) :
    Except String (List QDomElement) :=
  match deserialize_sld_style doc with
  | Except.error e => Except.error e
  | Except.ok deserialized =>
      let sld_root := deserialized.root
      if sld_root.isNull then
        Except.error "Could not parse downloaded SLD document"
      else
        let sld_named_layer := sld_root.firstChildElement "NamedLayer"
        if sld_named_layer.isNull then
          Except.error "Could not parse downloaded SLD document"
        else
          Except.ok [sld_named_layer]

/-- The pagination-relevant key/value content of a layer-list payload
dictionary, with each key optional (`dict.get` with a default). -/
structure LayerListPayload where
  page : Option Nat
  total : Option Nat
  page_size : Option Nat
  deriving Repr, DecidableEq

/-- The widget state written by `GeonodeDataSourceWidget.handle_pagination`:
`current_page`, the computed `total_pages`, and the enabled state of the
previous/next buttons. -/
structure PaginationUiState where
  current_page : Nat
  total_pages : Nat
  previous_enabled : Bool
  next_enabled : Bool
  deriving Repr, DecidableEq

/-- `GeonodeDataSourceWidget.handle_pagination`: read `page` (default 1),
`total` (default 0) and `page_size` (default 10) from the payload, compute
`total_pages = math.ceil(total_results / page_size)` (ceiling division,
exact for the integer magnitudes involved), enable the previous button iff
`current_page > 1` and the next button iff `current_page < total_pages`. -/
def handle_pagination (payload : LayerListPayload) : PaginationUiState :=
  let current_page := payload.page.getD 1
  let total_results := payload.total.getD 0
  let page_size := payload.page_size.getD 10
  let total_pages := (total_results + page_size - 1) / page_size
  { current_page := current_page
    total_pages := total_pages
    previous_enabled := decide (1 < current_page)
    next_enabled := decide (current_page < total_pages) }

/-- The two paging operations of `GeonodeDataSourceWidget`. -/
inductive PageOp where
  | next
  | previous
  deriving Repr, DecidableEq

/-- Effect of one paging request on `current_page` (a Python int, modelled
as `Int`): `request_next_page` does `current_page += 1`;
`request_previous_page` does `current_page = max(current_page - 1, 1)`. -/
def pageStep (current_page : Int) : PageOp → Int
  | PageOp.next => current_page + 1
  | PageOp.previous => max (current_page - 1) 1

/-- `current_page` after a sequence of paging requests. -/
def applyPageOps (current_page : Int) (ops : List PageOp) : Int :=
  ops.foldl pageStep current_page

/-- The initial `current_page` set in `GeonodeDataSourceWidget.__init__`. -/
def initial_current_page : Int := 1

/-- The fields stored by `BaseGeonodeClient.__init__`.  Strings are
modelled as lists of characters. -/
structure BaseClientState where
  auth_config : List Char
  base_url : List Char
  deriving Repr, DecidableEq

/-- Python's `str.rstrip("/")`: remove every trailing `'/'` character. -/
def pyRstripSlash (s : List Char) : List Char :=
  (s.reverse.dropWhile (fun c => c = '/')).reverse

/-- `BaseGeonodeClient.__init__`: `self.auth_config = auth_config or ""`
(Python `or`: `None` and the empty string are falsy) and
`self.base_url = base_url.rstrip("/")`. -/
def baseGeonodeClient_init (base_url : List Char) (auth_config : Option (List Char)) :
    BaseClientState :=
  { auth_config :=
      match auth_config with
      | none => []
      | some a => if a = [] then [] else a
    base_url := pyRstripSlash base_url }

/-- Whether a style-detail handler run raised (`RuntimeError`) rather than
emitting `style_detail_received`. -/
def raisesError (r : Except String (List QDomElement)) : Bool :=
  match r with
  | Except.error _ => true
  | Except.ok _ => false

lemma resultAndCleanup_parsed_reply (st : TaskState) :
    (resultAndCleanup st).2.parsed_reply = st.parsed_reply := by
  cases h : st.parsed_reply <;> simp [resultAndCleanup, h]

lemma resultAndCleanup_result_iff (st : TaskState) :
    (resultAndCleanup st).1 = true ↔
      ∃ pr, st.parsed_reply = some pr ∧ pr.qt_error = none := by
  cases h : st.parsed_reply with
  | none => simp [resultAndCleanup, h]
  | some pr => simp [resultAndCleanup, h, Option.isNone_iff_eq_none]

lemma processDeliveries_count_le_one (st : TaskState)
    (ds : List QgsNetworkReplyContent) : (processDeliveries st ds).2 ≤ 1 := by
  induction ds generalizing st with
  | nil => exact Nat.zero_le 1
  | cons d rest ih =>
      simp only [processDeliveries]
      split
      · exact Nat.le_refl 1
      · exact ih _

lemma processDeliveries_no_match (st : TaskState) (r : QtNetworkReply)
    (ds : List QgsNetworkReplyContent) (hr : st._reply = some r)
    (h : ∀ d ∈ ds, reply_matches d r = false) :
    processDeliveries st ds = (st, 0) := by
  induction ds with
  | nil => rfl
  | cons d rest ih =>
      have hd : _request_done st d = (st, false) := by
        simp [_request_done, hr, h d (List.mem_cons_self d rest)]
      simp only [processDeliveries, hd]
      exact ih fun x hx => h x (List.mem_cons_of_mem d hx)

lemma pageStep_ge_one (p : Int) (hp : 1 ≤ p) (op : PageOp) :
    1 ≤ pageStep p op := by
  cases op with
  | next =>
      have : p ≤ p + 1 := by omega
      exact le_trans hp this
  | previous => exact le_max_right _ _

lemma applyPageOps_ge_one (p : Int) (ops : List PageOp) (hp : 1 ≤ p) :
    1 ≤ applyPageOps p ops := by
  induction ops generalizing p with
  | nil => exact hp
  | cons op rest ih => exact ih (pageStep p op) (pageStep_ge_one p hp op)

lemma head?_dropWhile_false (p : Char → Bool) (l : List Char) (b : Char)
    (h : (l.dropWhile p).head? = some b) : p b = false := by
  induction l with
  | nil => simp [List.dropWhile] at h
  | cons c rest ih =>
      by_cases hc : p c
      · rw [List.dropWhile_cons_of_pos hc] at h
        exact ih h
      · rw [List.dropWhile_cons_of_neg hc] at h
        simp only [List.head?_cons, Option.some.injEq] at h
        subst h
        simpa using hc

/-- C1: `run()` returns `True` iff the parsed reply got bound during the wait
and its transport-error field (`qt_error`) is `None`; in particular, when the
parsed reply was never bound (no matching completion arrived before the wait
ended), `run()` returns `False` — the `AttributeError` raised by reading
`.qt_error` off `None` is caught, not propagated. -/
theorem run_result_true_iff (newReply : QtNetworkReply)
    (ds : List QgsNetworkReplyContent) :
    (run newReply ds).result = true ↔
      ∃ pr, (run newReply ds).state.parsed_reply = some pr ∧ pr.qt_error = none := by
  have h1 : (run newReply ds).result =
      (resultAndCleanup (processDeliveries
        { reply_content := none, parsed_reply := none, _reply := some newReply }
        ds).1).1 := rfl
  have h2 : (run newReply ds).state =
      (resultAndCleanup (processDeliveries
        { reply_content := none, parsed_reply := none, _reply := some newReply }
        ds).1).2 := rfl
  rw [h1, h2, resultAndCleanup_parsed_reply]
  exact resultAndCleanup_result_iff _

/-- C2: a delivery of the shared `finished` signal whose correlation id does
not match the reply the task initiated — or one arriving while the task has
no bound reply — leaves `reply_content` and `parsed_reply` unchanged and
does not emit `request_parsed`. -/
theorem request_done_nonmatching_ignored (st : TaskState)
    (d : QgsNetworkReplyContent)
    (h : st._reply = none ∨
      ∃ qt, st._reply = some qt ∧ reply_matches d qt = false) :
    (_request_done st d).1.reply_content = st.reply_content ∧
    (_request_done st d).1.parsed_reply = st.parsed_reply ∧
    (_request_done st d).2 = false := by
  rcases h with h | ⟨qt, hqt, hm⟩
  · simp [_request_done, h]
  · simp [_request_done, hqt, hm]

/-- Witness for C2 at a concrete state and a delivery whose correlation id
(6) differs from the bound reply's id (5). -/
theorem request_done_nonmatching_ignored_witness :
    (_request_done
        { reply_content := some [1], parsed_reply := none,
          _reply := some { requestId := 5, content := [] } }
        { requestId := 6, transport_error := none, http_status_code := 200,
          http_status_reason := "OK" }).1.reply_content = some [1] ∧
    (_request_done
        { reply_content := some [1], parsed_reply := none,
          _reply := some { requestId := 5, content := [] } }
        { requestId := 6, transport_error := none, http_status_code := 200,
          http_status_reason := "OK" }).1.parsed_reply = none ∧
    (_request_done
        { reply_content := some [1], parsed_reply := none,
          _reply := some { requestId := 5, content := [] } }
        { requestId := 6, transport_error := none, http_status_code := 200,
          http_status_reason := "OK" }).2 = false :=
  request_done_nonmatching_ignored _ _ (Or.inr ⟨_, rfl, by decide⟩)

/-- C3 counterexample: when no matching completion arrives during the wait
(the timeout fallback), `run` emits `request_parsed` zero times, not exactly
once, so the claim that both signals are emitted exactly once per run
fails. -/
theorem run_timeout_parsed_not_emitted :
    ¬ ((run { requestId := 0, content := [] } []).events.count
        Event.request_parsed = 1 ∧
       (run { requestId := 0, content := [] } []).events.count
        Event.request_finished = 1) := by
  decide

/-- C3 (amended): per `run` execution, `request_finished` is emitted exactly
once, `request_parsed` is emitted at most once, and any `request_parsed`
emission strictly precedes the `request_finished` emission. -/
theorem run_events_shape (newReply : QtNetworkReply)
    (ds : List QgsNetworkReplyContent) :
    ∃ k, k ≤ 1 ∧ (run newReply ds).events =
      List.replicate k Event.request_parsed ++ [Event.request_finished] :=
  ⟨(processDeliveries
      { reply_content := none, parsed_reply := none, _reply := some newReply }
      ds).2,
   processDeliveries_count_le_one _ _, rfl⟩

/-- C4: the nested event loop of `wait_for_signal` hands control back as
soon as the awaited signal fires (remaining queued deliveries are not
consumed), or when the timeout (default 10000 ms) elapses; on the timeout
path `run` returns normally with result `False` instead of raising. -/
theorem wait_for_signal_contract :
    (∀ (st : TaskState) (d : QgsNetworkReplyContent)
        (rest : List QgsNetworkReplyContent),
        (_request_done st d).2 = true →
        processDeliveries st (d :: rest) = ((_request_done st d).1, 1)) ∧
    (∀ (r : QtNetworkReply) (ds : List QgsNetworkReplyContent),
        (∀ d ∈ ds, reply_matches d r = false) → (run r ds).result = false) ∧
    wait_for_signal_default_timeout = 10000 := by
  refine ⟨?_, ?_, rfl⟩
  · intro st d rest h
    simp only [processDeliveries, h, if_true]
  · intro r ds h
    have hp : processDeliveries
        { reply_content := none, parsed_reply := none, _reply := some r } ds =
        ({ reply_content := none, parsed_reply := none, _reply := some r }, 0) :=
      processDeliveries_no_match _ r ds rfl h
    show (resultAndCleanup (processDeliveries
        { reply_content := none, parsed_reply := none, _reply := some r }
        ds).1).1 = false
    rw [hp]
    rfl

/-- Witness for C4: a matching delivery quits the loop immediately, and a run
whose only delivery does not match resolves as failure. -/
theorem wait_for_signal_contract_witness :
    processDeliveries
        { reply_content := none, parsed_reply := none,
          _reply := some { requestId := 3, content := [7] } }
        [{ requestId := 3, transport_error := none, http_status_code := 200,
           http_status_reason := "OK" }] =
      ((_request_done
          { reply_content := none, parsed_reply := none,
            _reply := some { requestId := 3, content := [7] } }
          { requestId := 3, transport_error := none, http_status_code := 200,
            http_status_reason := "OK" }).1, 1) ∧
    (run { requestId := 9, content := [] }
        [{ requestId := 4, transport_error := none, http_status_code := 200,
           http_status_reason := "OK" }]).result = false :=
  ⟨wait_for_signal_contract.1 _ _ _ (by decide),
   wait_for_signal_contract.2.1 _ _ (by decide)⟩

/-- C5 counterexample: a matching delivery carrying HTTP status 404 and no
transport error (the claim itself requires the transport-error field to be
`None`) makes `run` return `True`, because `run`'s success condition is
exactly `parsed_reply.qt_error is None`; the claimed result `False` is
wrong. -/
theorem run_404_result_not_false :
    ¬ ((run { requestId := 7, content := [3] }
        [{ requestId := 7, transport_error := none, http_status_code := 404,
           http_status_reason := "Not Found" }]).result = false) := by
  decide

/-- C5 (amended): for a request completing with an HTTP 404 response and no
transport error, the parsed reply carries status 404 with `qt_error = None`,
`run` returns `True` (success is defined as absence of transport error), and
the spec-modelled facade error dispatch emits `error_received` with
http_status 404 and transport error `None`. -/
theorem run_404_behaviour (r : QtNetworkReply) (d : QgsNetworkReplyContent)
    (hid : d.requestId = r.requestId) (ht : d.transport_error = none)
    (hs : d.http_status_code = 404) :
    (run r [d]).result = true ∧
    (run r [d]).state.parsed_reply = some (parse_network_reply d) ∧
    (parse_network_reply d).http_status_code = some 404 ∧
    (parse_network_reply d).qt_error = none ∧
    facade_error_event (parse_network_reply d) =
      some (d.http_status_reason, some 404, none) := by
  have hm : reply_matches d r = true := by
    simp [reply_matches, hid]
  have hpr : parse_network_reply d =
      { http_status_code := some 404,
        http_status_reason := some d.http_status_reason,
        qt_error := none } := by
    simp [parse_network_reply, ht, hs]
  have hrd : _request_done
      { reply_content := none, parsed_reply := none, _reply := some r } d =
      ({ reply_content := some r.content,
         parsed_reply := some (parse_network_reply d), _reply := some r },
       true) := by
    simp [_request_done, hm]
  have hstep : processDeliveries
      { reply_content := none, parsed_reply := none, _reply := some r } [d] =
      ({ reply_content := some r.content,
         parsed_reply := some (parse_network_reply d), _reply := some r },
       1) := by
    simp [processDeliveries, hrd]
  have hrun : run r [d] =
      { state :=
          { reply_content := some r.content,
            parsed_reply := some (parse_network_reply d), _reply := none },
        result := (parse_network_reply d).qt_error.isNone,
        events := [Event.request_parsed, Event.request_finished] } := by
    simp only [run, hstep, resultAndCleanup]
    rfl
  refine ⟨?_, ?_, ?_, ?_, ?_⟩
  · rw [hrun, hpr]
    rfl
  · rw [hrun]
  · rw [hpr]
  · rw [hpr]
  · rw [hpr]
    simp [facade_error_event, parsedReplyIsFailure]

/-- Witness for C5 (amended) at a concrete 404 delivery matching the bound
reply. -/
theorem run_404_behaviour_witness :
    (run { requestId := 7, content := [3] }
      [{ requestId := 7, transport_error := none, http_status_code := 404,
         http_status_reason := "Not Found" }]).result = true ∧
    (run { requestId := 7, content := [3] }
      [{ requestId := 7, transport_error := none, http_status_code := 404,
         http_status_reason := "Not Found" }]).state.parsed_reply =
      some (parse_network_reply
        { requestId := 7, transport_error := none, http_status_code := 404,
          http_status_reason := "Not Found" }) ∧
    (parse_network_reply
      { requestId := 7, transport_error := none, http_status_code := 404,
        http_status_reason := "Not Found" }).http_status_code = some 404 ∧
    (parse_network_reply
      { requestId := 7, transport_error := none, http_status_code := 404,
        http_status_reason := "Not Found" }).qt_error = none ∧
    facade_error_event (parse_network_reply
      { requestId := 7, transport_error := none, http_status_code := 404,
        http_status_reason := "Not Found" }) =
      some ("Not Found", some 404, none) :=
  run_404_behaviour { requestId := 7, content := [3] }
    { requestId := 7, transport_error := none, http_status_code := 404,
      http_status_reason := "Not Found" } rfl rfl rfl

/-- C6: when the downloaded style body is not well-formed SLD XML — the
document fails to load, its document element is null, or it lacks a
`NamedLayer` child — `handle_layer_style_detail` raises `RuntimeError` and
does not emit `style_detail_received` (an `error` outcome carries no
emission). -/
theorem style_detail_malformed_raises (doc : QDomDocument)
    (h : doc.loaded = false ∨ doc.root.isNull = true ∨
      (doc.root.firstChildElement "NamedLayer").isNull = true) :
    raisesError (handle_layer_style_detail doc) = true := by
  cases hl : doc.loaded with
  | false =>
      simp [handle_layer_style_detail, deserialize_sld_style, hl, raisesError]
  | true =>
      rcases h with h | h | h
      · rw [hl] at h
        exact absurd h (by simp)
      · simp [handle_layer_style_detail, deserialize_sld_style, hl, h,
          raisesError]
      · by_cases hr : doc.root.isNull = true
        · simp [handle_layer_style_detail, deserialize_sld_style, hl, hr,
            raisesError]
        · simp [handle_layer_style_detail, deserialize_sld_style, hl, hr, h,
            raisesError]

/-- Witness for C6 at a concrete document whose load failed. -/
theorem style_detail_malformed_raises_witness :
    ({ loaded := false, root := QDomElement.nullElement } : QDomDocument).loaded
        = false ∧
    raisesError (handle_layer_style_detail
      { loaded := false, root := QDomElement.nullElement }) = true :=
  ⟨rfl, style_detail_malformed_raises _ (Or.inl rfl)⟩

/-- C7: constructing a `MyNetworkFetcherTask` sets the singleton network
access manager's redirect policy to the task's policy; when two tasks are
constructed in sequence the last writer wins; and the default policy is
`NoLessSafeRedirectPolicy`. -/
theorem init_redirect_policy_effects :
    (∀ (nam : QgsNetworkAccessManager) (p : RedirectPolicy),
        (myNetworkFetcherTask_init nam p).1.redirectPolicy = p) ∧
    (∀ (nam : QgsNetworkAccessManager) (p1 p2 : RedirectPolicy),
        (myNetworkFetcherTask_init
          (myNetworkFetcherTask_init nam p1).1 p2).1.redirectPolicy = p2) ∧
    default_redirect_policy = RedirectPolicy.noLessSafeRedirect :=
  ⟨fun _ _ => rfl, fun _ _ _ => rfl, rfl⟩

/-- C8: for the payload with page 2, total 25 and page_size 10,
`handle_pagination` resolves to current page 2 of 3 total pages (ceiling of
25/10), with both the previous-page and next-page controls enabled. -/
theorem pagination_page2_of_3 :
    handle_pagination { page := some 2, total := some 25, page_size := some 10 } =
      { current_page := 2, total_pages := 3, previous_enabled := true,
        next_enabled := true } := by
  decide

/-- C9: starting from the initial `current_page = 1`, any sequence of
`request_next_page` / `request_previous_page` calls keeps `current_page` at
least 1; in particular `request_previous_page` at page 1 leaves it at 1. -/
theorem current_page_at_least_one :
    (∀ ops : List PageOp, 1 ≤ applyPageOps initial_current_page ops) ∧
    pageStep 1 PageOp.previous = 1 := by
  constructor
  · intro ops
    exact applyPageOps_ge_one initial_current_page ops le_rfl
  · decide

/-- C10: `BaseGeonodeClient.__init__` stores `base_url` with every trailing
`'/'` removed (the stored value is a prefix of the input, the dropped suffix
is all slashes, and the stored value does not end in `'/'`), and stores
`auth_config` unchanged when truthy and as the empty string when the input
is `None` or empty. -/
theorem client_init_fields (base_url : List Char)
    (auth_config : Option (List Char)) :
    (∃ k, base_url =
        (baseGeonodeClient_init base_url auth_config).base_url ++
          List.replicate k '/') ∧
    ((baseGeonodeClient_init base_url auth_config).base_url.getLast? ≠
        some '/') ∧
    ((auth_config = none ∨ auth_config = some []) →
        (baseGeonodeClient_init base_url auth_config).auth_config = []) ∧
    (∀ a : List Char, auth_config = some a → a ≠ [] →
        (baseGeonodeClient_init base_url auth_config).auth_config = a) := by
  refine ⟨?_, ?_, ?_, ?_⟩
  · refine ⟨(base_url.reverse.takeWhile (fun c => c = '/')).length, ?_⟩
    have hsplit :
        List.takeWhile (fun c => decide (c = '/')) base_url.reverse ++
          List.dropWhile (fun c => decide (c = '/')) base_url.reverse =
        base_url.reverse :=
      List.takeWhile_append_dropWhile (fun c => decide (c = '/')) base_url.reverse
    have hrep :
        (base_url.reverse.takeWhile (fun c => c = '/')).reverse =
        List.replicate
          (base_url.reverse.takeWhile (fun c => c = '/')).length '/' := by
      rw [List.reverse_eq_iff, List.reverse_replicate]
      rw [List.eq_replicate_length]
      intro b hb
      simpa using List.mem_takeWhile_imp hb
    calc base_url = base_url.reverse.reverse := (List.reverse_reverse _).symm
      _ = (List.takeWhile (fun c => decide (c = '/')) base_url.reverse ++
            List.dropWhile (fun c => decide (c = '/')) base_url.reverse).reverse := by
            rw [hsplit]
      _ = (List.dropWhile (fun c => decide (c = '/')) base_url.reverse).reverse ++
            (List.takeWhile (fun c => decide (c = '/')) base_url.reverse).reverse := by
            rw [List.reverse_append]
      _ = (baseGeonodeClient_init base_url auth_config).base_url ++
            List.replicate
              (base_url.reverse.takeWhile (fun c => c = '/')).length '/' := by
            rw [hrep]
            rfl
  · intro hcontra
    have h2 : (List.dropWhile (fun c => decide (c = '/'))
        base_url.reverse).reverse.getLast? = some '/' := hcontra
    rw [List.getLast?_reverse] at h2
    have := head?_dropWhile_false _ _ _ h2
    simp at this
  · intro h
    rcases h with h | h <;> subst h <;> rfl
  · intro a ha hne
    subst ha
    simp [baseGeonodeClient_init, hne]

/-- Witness for C10 at a concrete url ending in a slash and a truthy auth
configuration. -/
theorem client_init_fields_witness :
    (baseGeonodeClient_init [] (some [])).auth_config = [] ∧
    (baseGeonodeClient_init ['g', '/'] (some ['x'])).auth_config = ['x'] ∧
    (baseGeonodeClient_init ['g', '/'] (some ['x'])).base_url = ['g'] :=
  ⟨(client_init_fields [] (some [])).2.2.1 (Or.inr rfl),
   (client_init_fields ['g', '/'] (some ['x'])).2.2.2 ['x'] rfl (by decide),
   by decide⟩

end QgisGeonode
